import Mathlib

/-!
Verification of the bootstrap-resampling notebook.

The notebook defines three functions:
- a point estimator over a categorical array
    `def fair(data): value_counts = dict(zip(*np.unique(data, return_counts=True)));
       return value_counts.get('H',0.0)/sum(v for k,v in value_counts.items())`
- a single resample with replacement
    `def bootstrap_data(data): return np.random.choice(data, size=data.shape[0])`
- a repeated resample-and-evaluate loop
    `def bootstrap_function(data, f, n):
       result = np.empty(n, dtype=float)
       for i in range(n): data2 = bootstrap_data(data); result[i] = f(data2)
       return result`

The embedding makes the failure modes of the underlying Python/numpy calls
explicit as `Except` errors:
- legacy `np.random.choice` raises `ValueError: a must be non-empty` whenever
  the population array is empty (regardless of the requested size);
- Python float division `0.0 / 0` raises `ZeroDivisionError`;
- `np.empty(n)` raises `ValueError: negative dimensions are not allowed`
  for negative `n`.

Randomness is modelled explicitly: a random source is a stream of raw draws
`Nat → Nat`; `np.random.choice` turns the i-th draw into a uniform index by
reducing it modulo the population size.  A seeded generator is modelled by a
concrete linear congruential stream, so that reproducibility under a fixed
seed is statable.
-/

namespace Data301

/-- Error classes surfaced by the notebook's code paths. -/
inductive NpError where
  /-- `ValueError: a must be non-empty`, from `np.random.choice` on an empty
  population. -/
  | emptyPopulation
  /-- `ValueError: negative dimensions are not allowed`, from `np.empty(n)`
  with `n < 0`. -/
  | negativeDimensions
  /-- `ZeroDivisionError`, from Python division by an integer zero. -/
  | divisionByZero
deriving DecidableEq

instance {ε α : Type} [DecidableEq ε] [DecidableEq α] : DecidableEq (Except ε α)
  | Except.error a, Except.error b =>
    if h : a = b then isTrue (by rw [h])
    else isFalse (fun hh => h (Except.error.inj hh))
  | Except.error _, Except.ok _ => isFalse (fun hh => Except.noConfusion hh)
  | Except.ok _, Except.error _ => isFalse (fun hh => Except.noConfusion hh)
  | Except.ok a, Except.ok b =>
    if h : a = b then isTrue (by rw [h])
    else isFalse (fun hh => h (Except.ok.inj hh))

/-- The list of elements drawn by `np.random.choice(data, size)` once the
population is known non-empty: the j-th output element is the entry of `data`
at index `rng j % data.length` (uniform index from the j-th raw draw). -/
def np_choice_core {α : Type} [Inhabited α] (data : List α) (size : Nat)
    (rng : Nat → Nat) : List α :=
  (List.range size).map (fun j => data.getD (rng j % data.length) default)

/-- `np.random.choice(data, size)` (legacy `RandomState.choice`): rejects an
empty population with `ValueError: a must be non-empty` before looking at
`size`; otherwise draws `size` elements uniformly with replacement. -/
def np_random_choice {α : Type} [Inhabited α] (data : List α) (size : Nat)
    (rng : Nat → Nat) : Except NpError (List α) :=
  if data.length = 0 then Except.error NpError.emptyPopulation
  else Except.ok (np_choice_core data size rng)

/-- `fair(data)`: the fraction of the tosses that have a value of `H`.
`value_counts.get('H', 0.0)` is the number of `H` entries (0 when absent) and
`sum(v for k,v in value_counts.items())` is the total length; the division
raises `ZeroDivisionError` when the total is zero. -/
def fair (data : List String) : Except NpError ℚ :=
  if data.length = 0 then Except.error NpError.divisionByZero
  else Except.ok ((data.count "H" : ℚ) / (data.length : ℚ))

/-- `bootstrap_data(data)`: a single bootstrap resampling of the input,
`np.random.choice(data, size=data.shape[0])`. -/
def bootstrap_data {α : Type} [Inhabited α] (data : List α)
    (rng : Nat → Nat) : Except NpError (List α) :=
  np_random_choice data data.length rng

/-- The `for i in range(n)` loop body of `bootstrap_function`: at iteration
index `i` it resamples the data using the i-th independent raw stream
`rng i` and applies `f`; an exception anywhere aborts the whole loop. -/
def bootstrap_iter {α : Type} [Inhabited α] (data : List α) (f : List α → ℚ)
    (rng : Nat → Nat → Nat) : Nat → Nat → Except NpError (List ℚ)
  | _, 0 => Except.ok []
  | i, k + 1 =>
    match bootstrap_data data (rng i) with
    | Except.error e => Except.error e
    | Except.ok data2 =>
      match bootstrap_iter data f rng (i + 1) k with
      | Except.error e => Except.error e
      | Except.ok rest => Except.ok (f data2 :: rest)

/-- `bootstrap_function(data, f, n)`: allocate `np.empty(n)` (which rejects a
negative `n`), then fill position `i` with `f` of the i-th resample. -/
def bootstrap_function {α : Type} [Inhabited α] (data : List α)
    (f : List α → ℚ) (n : Int) (rng : Nat → Nat → Nat) :
    Except NpError (List ℚ) :=
  if n < 0 then Except.error NpError.negativeDimensions
  else bootstrap_iter data f rng 0 n.toNat

/-- One step of a concrete linear congruential generator, standing in for a
seeded pseudorandom source. -/
def lcg_next (s : Nat) : Nat := (1103515245 * s + 12345) % (2 ^ 31)

/-- The raw-draw stream produced by a generator seeded with `seed`. -/
def lcg_stream (seed : Nat) : Nat → Nat
  | 0 => lcg_next seed
  | k + 1 => lcg_next (lcg_stream seed k)

/-! ### Supporting lemmas -/

theorem np_choice_core_length {α : Type} [Inhabited α] (data : List α)
    (size : Nat) (rng : Nat → Nat) :
    (np_choice_core data size rng).length = size := by
  simp [np_choice_core]

theorem np_choice_core_mem {α : Type} [Inhabited α] {data : List α}
    (hd : data ≠ []) {size : Nat} {rng : Nat → Nat} {x : α}
    (hx : x ∈ np_choice_core data size rng) : x ∈ data := by
  rcases List.mem_map.mp hx with ⟨j, _, rfl⟩
  have hpos : 0 < data.length := List.length_pos.mpr hd
  have hlt : rng j % data.length < data.length := Nat.mod_lt _ hpos
  rw [List.getD_eq_getElem data default hlt]
  exact List.getElem_mem hlt

theorem bootstrap_data_ok {α : Type} [Inhabited α] {data : List α}
    (hd : data ≠ []) (rng : Nat → Nat) :
    bootstrap_data data rng
      = Except.ok (np_choice_core data data.length rng) := by
  simp [bootstrap_data, np_random_choice, List.length_eq_zero, hd]

theorem bootstrap_iter_ok {α : Type} [Inhabited α] {data : List α}
    (hd : data ≠ []) (f : List α → ℚ) (rng : Nat → Nat → Nat) :
    ∀ (k i : Nat), bootstrap_iter data f rng i k
      = Except.ok ((List.range k).map
          (fun j => f (np_choice_core data data.length (rng (i + j))))) := by
  intro k
  induction k with
  | zero => intro i; rfl
  | succ k ih =>
    intro i
    have h1 : bootstrap_iter data f rng i (k + 1)
        = Except.ok (f (np_choice_core data data.length (rng i))
            :: (List.range k).map
              (fun j => f (np_choice_core data data.length (rng (i + 1 + j))))) := by
      simp only [bootstrap_iter, bootstrap_data_ok hd, ih (i + 1)]
    rw [h1, List.range_succ_eq_map]
    simp only [List.map_cons, List.map_map, Nat.add_zero]
    congr 2
    apply List.map_congr_left
    intro j _
    have hj : i + 1 + j = i + Nat.succ j := by omega
    simp [Function.comp, hj]

theorem bootstrap_function_ok {α : Type} [Inhabited α] {data : List α}
    (hd : data ≠ []) (f : List α → ℚ) {n : Int} (hn : 0 ≤ n)
    (rng : Nat → Nat → Nat) :
    bootstrap_function data f n rng
      = Except.ok ((List.range n.toNat).map
          (fun i => f (np_choice_core data data.length (rng i)))) := by
  have h0 : ¬ n < 0 := not_lt.mpr hn
  rw [bootstrap_function, if_neg h0, bootstrap_iter_ok hd f rng n.toNat 0]
  simp

/-! ### Claim theorems -/

/-- Claim C1: for every non-empty observation sequence over category labels,
`fair` returns the fraction of elements equal to the target label `H`, a
value in `[0, 1]`; in particular the four notebook assertions hold:
`fair ["H","H","T","T"] = 0.5`, `fair ["T","T","T","T"] = 0.0`,
`fair ["H","H","H","H"] = 1.0`, and `fair ["H","H","H","T"] = 0.75`. -/
theorem fair_is_fraction_of_heads (data : List String) (hd : data ≠ []) :
    (∃ q : ℚ, fair data = Except.ok q ∧
        q = (data.count "H" : ℚ) / (data.length : ℚ) ∧ 0 ≤ q ∧ q ≤ 1) ∧
    fair ["H", "H", "T", "T"] = Except.ok (1 / 2) ∧
    fair ["T", "T", "T", "T"] = Except.ok 0 ∧
    fair ["H", "H", "H", "H"] = Except.ok 1 ∧
    fair ["H", "H", "H", "T"] = Except.ok (3 / 4) := by
  have hlen : (0 : ℚ) < (data.length : ℚ) := by
    exact_mod_cast List.length_pos.mpr hd
  refine ⟨⟨(data.count "H" : ℚ) / (data.length : ℚ), ?_, rfl, ?_, ?_⟩,
    ?_, ?_, ?_, ?_⟩
  · simp [fair, List.length_eq_zero, hd]
  · positivity
  · rw [div_le_one hlen]
    exact_mod_cast List.count_le_length "H" data
  · norm_num +decide [fair, List.count_cons, List.count_nil]
  · norm_num +decide [fair, List.count_cons, List.count_nil]
  · norm_num +decide [fair, List.count_cons, List.count_nil]
  · norm_num +decide [fair, List.count_cons, List.count_nil]

theorem fair_is_fraction_of_heads_witness :
    (["H", "T"] : List String) ≠ [] ∧
    ((∃ q : ℚ, fair ["H", "T"] = Except.ok q ∧
        q = ((["H", "T"] : List String).count "H" : ℚ)
            / ((["H", "T"] : List String).length : ℚ) ∧ 0 ≤ q ∧ q ≤ 1) ∧
    fair ["H", "H", "T", "T"] = Except.ok (1 / 2) ∧
    fair ["T", "T", "T", "T"] = Except.ok 0 ∧
    fair ["H", "H", "H", "H"] = Except.ok 1 ∧
    fair ["H", "H", "H", "T"] = Except.ok (3 / 4)) :=
  ⟨by decide, fair_is_fraction_of_heads ["H", "T"] (by decide)⟩

/-- Claim C2: for every non-empty observation sequence and every random
source, `bootstrap_data` returns a sequence of the same length as the input,
and every element of the output is a member of the input's value set.  (The
input is not mutated: the embedding is purely functional, and the result is a
freshly built list while `data` itself is untouched.) -/
theorem bootstrap_data_length_and_members {α : Type} [Inhabited α]
    (data : List α) (rng : Nat → Nat) (hd : data ≠ []) :
    ∃ out : List α, bootstrap_data data rng = Except.ok out ∧
      out.length = data.length ∧ ∀ x ∈ out, x ∈ data :=
  ⟨np_choice_core data data.length rng, bootstrap_data_ok hd rng,
    np_choice_core_length data data.length rng,
    fun _ hx => np_choice_core_mem hd hx⟩

theorem bootstrap_data_length_and_members_witness :
    (["A", "B"] : List String) ≠ [] ∧
    ∃ out : List String,
      bootstrap_data ["A", "B"] (fun k => k) = Except.ok out ∧
      out.length = (["A", "B"] : List String).length ∧
      ∀ x ∈ out, x ∈ (["A", "B"] : List String) :=
  ⟨by decide, bootstrap_data_length_and_members ["A", "B"] (fun k => k)
    (by decide)⟩

/-- Claim C4 (counterexample): on the empty input, `bootstrap_data` does not
return the empty sequence — `np.random.choice` rejects the empty population
with an error regardless of the requested size. -/
theorem bootstrap_data_empty_not_ok :
    bootstrap_data ([] : List String) (fun k => k)
        = Except.error NpError.emptyPopulation ∧
    bootstrap_data ([] : List String) (fun k => k)
        ≠ Except.ok [] :=
  ⟨rfl, by decide⟩

/-- Claim C4 (amended): for an input sequence of length 0 and any random
source, `bootstrap_data` fails with the empty-population `ValueError` raised
by `np.random.choice`; it does not return the empty sequence. -/
theorem bootstrap_data_empty_input_fails {α : Type} [Inhabited α]
    (rng : Nat → Nat) :
    bootstrap_data ([] : List α) rng
      = Except.error NpError.emptyPopulation := rfl

/-- Claim C5: for the empty observation sequence, `fair` fails with a
DivisionByZero-class error (`0.0 / 0` raises `ZeroDivisionError`); it does
not return any numeric value, in particular not the default `0.0`. -/
theorem fair_empty_division_by_zero :
    fair [] = Except.error NpError.divisionByZero ∧
    ∀ q : ℚ, fair [] ≠ Except.ok q :=
  ⟨rfl, fun _ h => Except.noConfusion h⟩

/-- Claim C3 (counterexample): the claim quantifies over every observation
sequence, but on the empty sequence with repetition count 1 the loop's first
resample fails, so no collection of exactly 1 value is returned. -/
theorem bootstrap_function_empty_one_rep_not_ok :
    bootstrap_function ([] : List String) (fun _ => 0) 1 (fun _ _ => 0)
        = Except.error NpError.emptyPopulation ∧
    ¬ ∃ l : List ℚ,
      bootstrap_function ([] : List String) (fun _ => 0) 1 (fun _ _ => 0)
          = Except.ok l ∧ l.length = 1 := by
  have h : bootstrap_function ([] : List String) (fun _ => 0) 1 (fun _ _ => 0)
      = Except.error NpError.emptyPopulation := rfl
  refine ⟨h, ?_⟩
  rintro ⟨l, hl, -⟩
  rw [h] at hl
  exact Except.noConfusion hl

/-- Claim C3 (amended): for every non-empty observation sequence, every
estimator `f`, every repetition count `n ≥ 0`, and every random source,
`bootstrap_function` returns an ordered collection of exactly `n` values, the
i-th being `f` applied to the i-th independently drawn resample (the resample
`bootstrap_data` produces from the i-th raw stream).  The non-emptiness
restriction is forced: on the empty sequence the resampler itself fails. -/
theorem bootstrap_function_n_values {α : Type} [Inhabited α]
    (data : List α) (f : List α → ℚ) (n : Int) (rng : Nat → Nat → Nat)
    (hd : data ≠ []) (hn : 0 ≤ n) :
    ∃ l : List ℚ, bootstrap_function data f n rng = Except.ok l ∧
      (l.length : Int) = n ∧
      ∀ i : Nat, (hi : i < l.length) →
        bootstrap_data data (rng i)
            = Except.ok (np_choice_core data data.length (rng i)) ∧
        l.get ⟨i, hi⟩ = f (np_choice_core data data.length (rng i)) := by
  refine ⟨(List.range n.toNat).map
      (fun i => f (np_choice_core data data.length (rng i))),
    bootstrap_function_ok hd f hn rng, ?_, ?_⟩
  · simp [Int.toNat_of_nonneg hn]
  · intro i hi
    refine ⟨bootstrap_data_ok hd (rng i), ?_⟩
    simp

theorem bootstrap_function_n_values_witness :
    (["H", "T"] : List String) ≠ [] ∧ (0 : Int) ≤ 2 ∧
    ∃ l : List ℚ,
      bootstrap_function (["H", "T"] : List String) (fun _ => 0) 2
          (fun _ _ => 0) = Except.ok l ∧
      (l.length : Int) = 2 ∧
      ∀ i : Nat, (hi : i < l.length) →
        bootstrap_data (["H", "T"] : List String) ((fun _ _ => (0 : Nat)) i)
            = Except.ok (np_choice_core (["H", "T"] : List String)
                (["H", "T"] : List String).length ((fun _ _ => (0 : Nat)) i)) ∧
        l.get ⟨i, hi⟩ = (fun _ => (0 : ℚ))
            (np_choice_core (["H", "T"] : List String)
              (["H", "T"] : List String).length ((fun _ _ => (0 : Nat)) i)) :=
  ⟨by decide, by decide,
    bootstrap_function_n_values ["H", "T"] (fun _ => 0) 2 (fun _ _ => 0)
      (by decide) (by decide)⟩

/-- Claim C6: with repetition count 0, `bootstrap_function` returns the empty
collection for every data sequence, estimator, and random source, and the
result does not depend on the estimator (the loop body, hence `f`, is never
invoked). -/
theorem bootstrap_function_zero_reps {α : Type} [Inhabited α]
    (data : List α) (f g : List α → ℚ) (rng : Nat → Nat → Nat) :
    bootstrap_function data f 0 rng = Except.ok [] ∧
    bootstrap_function data f 0 rng = bootstrap_function data g 0 rng :=
  ⟨rfl, rfl⟩

/-- Claim C7: a negative repetition count makes `bootstrap_function` fail
immediately with the negative-dimensions `ValueError` that `np.empty(n)`
raises — the spec's `InvalidRepetitionCount` class. -/
theorem bootstrap_function_negative_reps {α : Type} [Inhabited α]
    (data : List α) (f : List α → ℚ) (n : Int) (rng : Nat → Nat → Nat)
    (hn : n < 0) :
    bootstrap_function data f n rng
      = Except.error NpError.negativeDimensions := by
  simp [bootstrap_function, hn]

theorem bootstrap_function_negative_reps_witness :
    (-1 : Int) < 0 ∧
    bootstrap_function (["H"] : List String) (fun _ => 0) (-1) (fun _ _ => 0)
      = Except.error NpError.negativeDimensions :=
  ⟨by decide, bootstrap_function_negative_reps ["H"] (fun _ => 0) (-1)
    (fun _ _ => 0) (by decide)⟩

/-- Claim C8: `bootstrap_data` is reproducible given a fixed randomness seed:
two calls on the same input whose random sources are seeded with the same
seed yield the same output sequence. -/
theorem bootstrap_data_seed_reproducible (data : List String) (s t : Nat)
    (h : s = t) :
    bootstrap_data data (lcg_stream s) = bootstrap_data data (lcg_stream t) :=
  by rw [h]

theorem bootstrap_data_seed_reproducible_witness :
    42 = 42 ∧
    bootstrap_data ["A", "B"] (lcg_stream 42)
      = bootstrap_data ["A", "B"] (lcg_stream 42) :=
  ⟨rfl, bootstrap_data_seed_reproducible ["A", "B"] 42 42 rfl⟩

/-- Claim C9: the point estimator `fair` is invariant under permutation of
its non-empty input, since it depends only on the count of each label and the
total length, both of which permutations preserve. -/
theorem fair_perm_invariant (l₁ l₂ : List String) (hd : l₁ ≠ [])
    (hp : l₁.Perm l₂) : fair l₁ = fair l₂ := by
  simp only [fair, hp.length_eq, hp.count_eq "H"]

theorem fair_perm_invariant_witness :
    ((["H", "T"] : List String) ≠ [] ∧
      (["H", "T"] : List String).Perm ["T", "H"]) ∧
    fair ["H", "T"] = fair ["T", "H"] :=
  ⟨⟨by decide, List.Perm.swap "T" "H" []⟩,
    fair_perm_invariant ["H", "T"] ["T", "H"] (by decide)
      (List.Perm.swap "T" "H" [])⟩

/-- Claim C10: for every estimator, every repetition count `n ≥ 1`, and every
random source, `bootstrap_function` on the empty observation sequence fails
with the empty-population error before producing any value: the first loop
iteration's resample already fails. -/
theorem bootstrap_function_empty_input_fails (f : List String → ℚ)
    (n : Int) (rng : Nat → Nat → Nat) (hn : 1 ≤ n) :
    bootstrap_function ([] : List String) f n rng
      = Except.error NpError.emptyPopulation := by
  have h0 : ¬ n < 0 := by omega
  obtain ⟨k, hk⟩ : ∃ k, n.toNat = k + 1 := ⟨n.toNat - 1, by omega⟩
  rw [bootstrap_function, if_neg h0, hk]
  rfl

theorem bootstrap_function_empty_input_fails_witness :
    (1 : Int) ≤ 1 ∧
    bootstrap_function ([] : List String) (fun _ => 0) 1 (fun _ _ => 0)
      = Except.error NpError.emptyPopulation :=
  ⟨by decide, bootstrap_function_empty_input_fails (fun _ => 0) 1
    (fun _ _ => 0) (by decide)⟩

end Data301
